import Mathlib

/-!
Verification of the DB_lmdb repository core against its
natural-language specification.

The development shallowly embeds the relevant C modules:

* `src/app/src/core/operations/ops_int/security/security.c`
  (`security_check`, `_map_mdb_err_to_errno`, `_expand_env_mapsize`)
* `src/app/src/core/operations/ops_int/ops_exec.c`
  (`ops_add_operation`, `_exec_ro_ops`, `_exec_rw_ops`,
  `ops_execute_operations`, `_batch_type_from_op_type`,
  `_txn_type_from_batch_type`)
* `src/app/src/core/operations/ops_int/ops_actions.c`
  (`_resolve_desc`, `act_get`)
* `src/app/src/db_lmdb/db_lmdb_dbi.c` together with the `*_safe`
  engine wrappers of `src/app/src/db_lmdb/db_lmdb_core.c`
  (`db_lmdb_dbi_init`, `_dbi_init_one`, `_safety_check`)
* `src/app/src/core/core.c` (`db_core_shutdown`)

The LMDB engine itself is an external collaborator.  Its calls are
modelled by explicit oracles (result-code streams / response fields in
the state records), and addresses are abstract naturals (`0` plays the
role of the NULL pointer).  Machine integers are modelled as `Int`;
none of the embedded arithmetic can overflow in the ranges exercised.
-/

/-! ### LMDB return codes (lmdb.h) and POSIX errno values (errno.h) -/

def MDB_SUCCESS : Int := 0

def MDB_KEYEXIST : Int := -30799

def MDB_NOTFOUND : Int := -30798

def MDB_PAGE_NOTFOUND : Int := -30797

def MDB_CORRUPTED : Int := -30796

def MDB_PANIC : Int := -30795

def MDB_VERSION_MISMATCH : Int := -30794

def MDB_INVALID : Int := -30793

def MDB_MAP_FULL : Int := -30792

def MDB_DBS_FULL : Int := -30791

def MDB_READERS_FULL : Int := -30790

def MDB_TXN_FULL : Int := -30788

def MDB_CURSOR_FULL : Int := -30787

def MDB_PAGE_FULL : Int := -30786

def MDB_MAP_RESIZED : Int := -30785

def MDB_INCOMPATIBLE : Int := -30784

def MDB_BAD_RSLOT : Int := -30783

def MDB_BAD_TXN : Int := -30782

def MDB_BAD_VALSIZE : Int := -30781

def MDB_BAD_DBI : Int := -30780

/-- MDB_RDONLY flag (0x20000). -/
def MDB_RDONLY : Int := 131072

def ENOENT : Int := 2

def EIOerr : Int := 5

def EAGAIN : Int := 11

def ENOMEM : Int := 12

def EBUSY : Int := 16

def EEXIST : Int := 17

def EINVAL : Int := 22

def ENOSPC : Int := 28

def EPROTO : Int := 71

def EOVERFLOW : Int := 75

def ESTALE : Int := 116

/-- The three-valued safety decision `db_security_ret_code_t`
(security.h); the same three values are used by the db_lmdb revision
as `DB_LMDB_SAFE_OK / RETRY / FAIL` (db_lmdb_safety.h). -/
inductive SafetyCode where
  | success
  | retry
  | fail
deriving DecidableEq, Repr

/-- `_map_mdb_err_to_errno` from security.c.  The function
`db_map_mdb_err` in db_lmdb.c is textually the same table; both are
embedded by this single definition. -/
def mapMdbErrToErrno (rc : Int) : Int :=
  if rc = MDB_SUCCESS then 0
  else if rc = MDB_NOTFOUND then -ENOENT
  else if rc = MDB_KEYEXIST then -EEXIST
  else if rc = MDB_MAP_FULL then -ENOSPC
  else if rc = MDB_DBS_FULL then -ENOSPC
  else if rc = MDB_READERS_FULL then -EAGAIN
  else if rc = MDB_TXN_FULL then -EOVERFLOW
  else if rc = MDB_CURSOR_FULL then -EOVERFLOW
  else if rc = MDB_PAGE_FULL then -ENOSPC
  else if rc = MDB_MAP_RESIZED then -EAGAIN
  else if rc = MDB_INCOMPATIBLE then -EPROTO
  else if rc = MDB_VERSION_MISMATCH then -EINVAL
  else if rc = MDB_INVALID then -EINVAL
  else if rc = MDB_PAGE_NOTFOUND then -EIOerr
  else if rc = MDB_CORRUPTED then -EIOerr
  else if rc = MDB_PANIC then -EIOerr
  else if rc = MDB_BAD_RSLOT then -EBUSY
  else if rc = MDB_BAD_TXN then -EINVAL
  else if rc = MDB_BAD_VALSIZE then -EINVAL
  else if rc = MDB_BAD_DBI then -ESTALE
  else -rc

/-! ### Security policy state (security.c)

`security_check` reads and mutates process-wide state: the global
`DataBase` handle (validity of `DataBase` / `DataBase->env`, the
configured maximum `map_size_bytes_max`) and the engine environment
(whose current `me_mapsize` is read through `mdb_env_info` and changed
through `mdb_env_set_mapsize`).  `SecEnv` packages that state together
with the engine responses for the two environment calls. -/

structure SecEnv where
  /-- `DataBase && DataBase->env` is non-NULL. -/
  valid : Bool
  /-- engine-reported current map size (`MDB_envinfo.me_mapsize`),
  updated by a successful `mdb_env_set_mapsize`. -/
  mapsize : Nat
  /-- `DataBase->map_size_bytes_max`. -/
  mapsizeMax : Nat
  /-- whether `mdb_env_info` succeeds (same outcome for each of the
  up-to-3 attempts of the retry loop in `_expand_env_mapsize`). -/
  infoOk : Bool
  /-- return code the engine gives to `mdb_env_set_mapsize`. -/
  setMapsizeRc : Int
deriving DecidableEq, Repr

/-- `_expand_env_mapsize` from security.c: doubles the engine-reported
map size, capped (equality allowed) at the configured maximum.
Returns the C function's return code together with the state after the
call (a successful `mdb_env_set_mapsize` changes the engine's map
size; the code does not update any other bookkeeping). -/
def expandEnvMapsize (e : SecEnv) : Int × SecEnv :=
  if ¬ e.valid then (-EIOerr, e)
  else if ¬ e.infoOk then (-EIOerr, e)
  else
    let desired := e.mapsize * 2
    if desired > e.mapsizeMax then (MDB_MAP_FULL, e)
    else if e.setMapsizeRc ≠ 0 then (e.setMapsizeRc, e)
    else (0, { e with mapsize := desired })

/-- Whether `mdb_rc` is one of the seven case labels of the retry arm
of the `switch` in `security_check` (security.c). -/
def isRetryCaseSec (rc : Int) : Prop :=
  rc = MDB_MAP_RESIZED ∨ rc = MDB_PAGE_FULL ∨ rc = MDB_TXN_FULL ∨
  rc = MDB_CURSOR_FULL ∨ rc = MDB_BAD_RSLOT ∨ rc = MDB_READERS_FULL ∨
  rc = MDB_MAP_FULL

instance (rc : Int) : Decidable (isRetryCaseSec rc) := by
  unfold isRetryCaseSec; infer_instance

/-- Observable outcome of one `security_check` call. -/
structure SecResult where
  decision : SafetyCode
  /-- value written through `out_errno` (`none` = pointer untouched). -/
  errOut : Option Int
  /-- whether `mdb_txn_abort` was called on the supplied transaction. -/
  txnAborted : Bool
  /-- state after the call. -/
  env : SecEnv
deriving DecidableEq, Repr

/-- `security_check` from security.c, for a caller that passes a
non-NULL `out_errno` pointer.  `txnPresent` records whether the `txn`
argument was non-NULL. -/
def securityCheck (rc : Int) (txnPresent : Bool) (e : SecEnv) : SecResult :=
  if rc = MDB_SUCCESS then ⟨.success, none, false, e⟩
  else if isRetryCaseSec rc then
    -- the transaction has to be aborted, then check if need to resize
    if rc = MDB_MAP_FULL then
      if (expandEnvMapsize e).1 = 0 then
        ⟨.retry, some (mapMdbErrToErrno rc), txnPresent, (expandEnvMapsize e).2⟩
      else ⟨.fail, some (mapMdbErrToErrno rc), txnPresent, (expandEnvMapsize e).2⟩
    else ⟨.retry, some (mapMdbErrToErrno rc), txnPresent, e⟩
  else if rc = MDB_NOTFOUND ∨ rc = MDB_KEYEXIST then
    -- logic failures which do not invalidate the transaction
    ⟨.fail, some (mapMdbErrToErrno rc), false, e⟩
  else ⟨.fail, some (mapMdbErrToErrno rc), txnPresent, e⟩

example : (securityCheck MDB_NOTFOUND true ⟨true, 4, 16, true, 0⟩).decision = .fail := by decide

example :
    (securityCheck MDB_MAP_FULL true ⟨true, 4, 16, true, 0⟩).env.mapsize = 8 := by decide

example : (securityCheck MDB_MAP_FULL true ⟨true, 12, 16, true, 0⟩).decision = .fail := by decide

/-! ### Operation batch (ops_internals.h / ops_externals.h / ops_exec.c)

An operation's key and value descriptors are the tagged union
`op_key_t` with kinds `OP_KEY_KIND_NONE / PRESENT / LOOKUP`
(ops_externals.h revision, the one the `.c` files use).  A `PRESENT`
descriptor carries a pointer and a size (abstract address model, `0`
is NULL); a `LOOKUP` carries a source selector and an operation
index. -/

inductive OpSrc where
  | key
  | val
deriving DecidableEq, Repr

inductive Desc where
  | none
  | present (ptr : Nat) (size : Nat)
  | lookup (src : OpSrc) (opIndex : Nat)
deriving DecidableEq, Repr

/-- `op_type_t` (ops_facade.h). -/
inductive OpType where
  | noneOp
  | put
  | get
  | del
deriving DecidableEq, Repr

/-- `op_t` (ops_internals.h). -/
structure Op where
  dbi : Nat
  type : OpType
  key : Desc
  val : Desc
deriving DecidableEq, Repr

/-- `batch_kind_t` (ops_exec.c): `OPS_BATCH_KIND_RO = 0`,
`OPS_BATCH_KIND_RW = 1`. -/
inductive BatchKind where
  | ro
  | rw
deriving DecidableEq, Repr

/-- `OPS_CACHE_SIZE` (ops_exec.c). -/
def OPS_CACHE_SIZE : Nat := 8

/-- The global `batch_t ops_cache` (ops_exec.c).  `ops` lists the
first `n_ops` entries of the fixed `ops[OPS_CACHE_SIZE]` array, so
`ops.length` plays the role of `n_ops`.  `rwCacheUsed` models
`rw_cache_used`. -/
structure Batch where
  kind : BatchKind
  ops : List Op
  rwCacheUsed : Nat
deriving DecidableEq, Repr

/-- `memset(&ops_cache, 0, sizeof(batch_t))`: all-zero state, i.e.
kind `OPS_BATCH_KIND_RO`, no operations, empty scratch cache. -/
def emptyBatch : Batch := ⟨.ro, [], 0⟩

/-- `_batch_type_from_op_type` (ops_exec.c): GET is read-only,
everything else defaults to read-write. -/
def batchTypeFromOpType (t : OpType) : BatchKind :=
  match t with
  | .get => .ro
  | _ => .rw

/-- `_txn_type_from_batch_type` (ops_exec.c): read-only batches open
the transaction with `MDB_RDONLY`, read-write batches with `0`. -/
def txnTypeFromBatchType (k : BatchKind) : Int :=
  match k with
  | .ro => MDB_RDONLY
  | _ => 0

/-- `ops_add_operation` (ops_exec.c), for a non-NULL `operation`
pointer.  Returns the C return value and the `ops_cache` state after
the call.  Note the source checks only the KEY descriptor, and only
rejects a lookup whose `op_index` is strictly greater than `n_ops`. -/
def opsAddOperation (op : Op) (b : Batch) : Int × Batch :=
  -- check if write op: set whole ops batch to write
  let b1 :=
    if b.kind = .ro ∧ batchTypeFromOpType op.type = .rw then
      { b with kind := .rw }
    else b
  -- key lookup bound check (value descriptor is not examined)
  match op.key with
  | .lookup _ i =>
    if i > b1.ops.length then (-EINVAL, b1)
    else if b1.ops.length ≥ OPS_CACHE_SIZE then (-ENOMEM, b1)
    else (0, { b1 with ops := b1.ops ++ [op] })
  | _ =>
    if b1.ops.length ≥ OPS_CACHE_SIZE then (-ENOMEM, b1)
    else (0, { b1 with ops := b1.ops ++ [op] })

/-! ### Descriptor resolution (`_resolve_desc`, ops_actions.c)

`_resolve_desc(base, desc)` walks a descriptor; a LOOKUP index is
interpreted as how many positions back from `base` the referenced
operation lies (`op_t* lookup_op = base - desc->lookup.op_index`).
`ops` is the batch's operation array and `pos` the index of `base` in
it.  The C function is recursive with no fuel; `fuel` bounds the
recursion depth in the embedding, so a result of `outOfFuel` for every
fuel value means the C recursion does not terminate. -/

inductive Resolved where
  /-- a non-NULL `MDB_val*` describing these bytes. -/
  | span (ptr : Nat) (size : Nat)
  /-- the C function returns NULL. -/
  | nullPtr
  /-- `base - op_index` leaves the operation array: undefined
  behaviour in C, made explicit here. -/
  | oob
  /-- recursion depth exceeded the given fuel. -/
  | outOfFuel
deriving DecidableEq, Repr

def resolveDesc (ops : List Op) : Nat → Nat → Desc → Resolved
  | 0, _, _ => .outOfFuel
  | _ + 1, _, .none => .nullPtr
  | _ + 1, _, .present p s =>
    if p = 0 ∨ s = 0 then .nullPtr else .span p s
  | fuel + 1, pos, .lookup src i =>
    if i > pos then .oob
    else
      match ops.get? (pos - i) with
      | Option.none => .oob
      | some lop =>
        match src with
        | .key => resolveDesc ops fuel (pos - i) lop.key
        | .val => resolveDesc ops fuel (pos - i) lop.val

/-! ### Batch execution (`ops_execute_operations`, ops_exec.c)

`_exec_ro_ops` / `_exec_rw_ops` drive a bounded retry loop around
three steps: `act_txn_begin`, `_exec_ops` (all queued operations) and
`act_txn_commit` (read-write) or an unconditional abort (read-only).
The outcome of each step on each attempt is an engine/policy fact, not
something the loop computes, so the steps are modelled as oracles: for
attempt `k` the oracle yields the step's safety decision together with
the value the step wrote through its `int* res` out-parameter (`none`
when nothing was written). -/

/-- `DB_LMDB_RETRY_OPS_EXEC` (db_lmdb_config.h). -/
def DB_LMDB_RETRY_OPS_EXEC : Nat := 3

structure ExecOracle where
  beginR : Nat → SafetyCode × Option Int
  execR : Nat → SafetyCode × Option Int
  commitR : Nat → SafetyCode × Option Int

/-- An out-parameter write: `res` keeps its value when the step wrote
nothing. -/
def stepRes (res : Int) (w : Option Int) : Int := w.getD res

/-- The retry loop of `_exec_rw_ops` (ops_exec.c).  `k` is
`retry_count` and `rem` the number of attempts still allowed
(`DB_LMDB_RETRY_OPS_EXEC - k`, so the source's exhaustion test
`retry_count++ >= DB_LMDB_RETRY_OPS_EXEC` is `rem = 0`); `res` is the
current value of the local `res`. -/
def execLoopRW (o : ExecOracle) : Nat → Nat → Int → Int
  | 0, _, _ => -EIOerr
  | rem + 1, k, res =>
    let b := o.beginR k
    let res1 := stepRes res b.2
    match b.1 with
    | .retry => execLoopRW o rem (k + 1) res1
    | .fail => res1
    | .success =>
      let x := o.execR k
      let res2 := stepRes res1 x.2
      match x.1 with
      | .retry => execLoopRW o rem (k + 1) res2
      | .fail => res2
      | .success =>
        let c := o.commitR k
        let res3 := stepRes res2 c.2
        match c.1 with
        | .retry => execLoopRW o rem (k + 1) res3
        | .fail => res3
        | .success => 0

/-- The retry loop of `_exec_ro_ops` (ops_exec.c): same shape, but a
successful pass ends with an unconditional `mdb_txn_abort` instead of
a commit. -/
def execLoopRO (o : ExecOracle) : Nat → Nat → Int → Int
  | 0, _, _ => -EIOerr
  | rem + 1, k, res =>
    let b := o.beginR k
    let res1 := stepRes res b.2
    match b.1 with
    | .retry => execLoopRO o rem (k + 1) res1
    | .fail => res1
    | .success =>
      let x := o.execR k
      let res2 := stepRes res1 x.2
      match x.1 with
      | .retry => execLoopRO o rem (k + 1) res2
      | .fail => res2
      | .success => 0

/-- `_exec_rw_ops`: runs the loop and wipes `ops_cache` at the single
exit (`memset` under the `fail:` label). -/
def execRwOps (o : ExecOracle) : Int × Batch :=
  (execLoopRW o DB_LMDB_RETRY_OPS_EXEC 0 (-1), emptyBatch)

/-- `_exec_ro_ops`: runs the loop and wipes `ops_cache` at the single
exit. -/
def execRoOps (o : ExecOracle) : Int × Batch :=
  (execLoopRO o DB_LMDB_RETRY_OPS_EXEC 0 (-1), emptyBatch)

/-- `ops_execute_operations` (ops_exec.c).  An empty cache is rejected
before anything runs; otherwise the read-only or read-write loop runs
(each wipes the cache on exit) and the cache is wiped again before
returning. -/
def opsExecuteOperations (o : ExecOracle) (b : Batch) : Int × Batch :=
  if b.ops.length = 0 then (-EINVAL, b)
  else
    let r :=
      match b.kind with
      | .ro => execRoOps o
      | .rw => execRwOps o
    (r.1, emptyBatch)

example :
    opsAddOperation ⟨0, .put, .present 1 1, .lookup .val 5⟩ emptyBatch =
      (0, ⟨.rw, [⟨0, .put, .present 1 1, .lookup .val 5⟩], 0⟩) := by decide

example :
    resolveDesc [⟨0, .get, .lookup .key 0, .none⟩] 3 0 (.lookup .key 0) = .outOfFuel := by decide

/-! ### `act_get` (ops_actions.c)

`act_get(txn, op, out_err)` resolves the key, calls `mdb_get` and
post-processes the result.  The engine call is an oracle
(`engGet`: either the LMDB return code or the found value's span);
`ops`/`pos` give the batch context `_resolve_desc` needs, `fuel`
bounds its recursion.  The result is `Option`al because a resolution
that runs off the array (or never terminates) is undefined behaviour
in C and has no outcome to report. -/

structure GetOut where
  /-- safety decision returned by `act_get`. -/
  ret : SafetyCode
  /-- `*op` after the call (act_get mutates `op->val` in place). -/
  op : Op
  /-- value written through `out_err` (`none` = pointer untouched). -/
  errOut : Option Int
  /-- the `memcpy` into the caller's buffer, as
  (destination, source, length), when one happened. -/
  copy : Option (Nat × Nat × Nat)
  /-- security state after the call (only the engine-failure path
  reaches `security_check`). -/
  env : SecEnv
  txnAborted : Bool
deriving DecidableEq, Repr

def actGet (ops : List Op) (pos : Nat) (op : Op)
    (engGet : Except Int (Nat × Nat)) (e : SecEnv) (fuel : Nat) :
    Option GetOut :=
  -- k_ptr = _get_key(op); NULL means FAIL, out_err untouched
  match resolveDesc ops fuel pos op.key with
  | .nullPtr => some ⟨.fail, op, none, none, e, false⟩
  | .oob => none
  | .outOfFuel => none
  | .span _ _ =>
    match engGet with
    | .error rc =>
      -- goto fail: return security_check(mdb_res, txn, out_err)
      let r := securityCheck rc true e
      some ⟨r.decision, op, r.errOut, none, r.env, r.txnAborted⟩
    | .ok (vptr, vsize) =>
      match op.val with
      | .present bptr bsize =>
        -- user gave a destination buffer
        if vsize > bsize then
          -- user buffer too small: FAIL, out_err untouched
          some ⟨.fail, op, none, none, e, false⟩
        else
          -- copy to user buffer, set actual size
          some ⟨.success, { op with val := .present bptr vsize },
            none, some (bptr, vptr, vsize), e, false⟩
      | _ =>
        -- no user buffer: store the reference to the engine-owned
        -- bytes in the operation's own value descriptor
        some ⟨.success, { op with val := .present vptr vsize },
          none, none, e, false⟩

example :
    actGet [] 0 ⟨0, .get, .present 3 1, .none⟩ (.ok (9, 2)) ⟨true, 4, 16, true, 0⟩ 1 =
      some ⟨.success, ⟨0, .get, .present 3 1, .present 9 2⟩, none, none,
        ⟨true, 4, 16, true, 0⟩, false⟩ := by decide

/-! ### DBI registry (db_lmdb_dbi.c with the db_lmdb_core.c wrappers)

`db_lmdb_dbi_init` begins a transaction, opens/queries every declared
DBI via `_dbi_init_one`, and commits, with a `retry:` label the RETRY
arms jump back to.  The engine is modelled as a stream of return codes
consumed one per engine call, plus a log of the calls made (the log is
what the theorems inspect).  Descriptor bookkeeping (`DB->dbis[i]`)
carries no control flow and is not tracked. -/

def DB_LMDB_RETRY_TRANSACTION : Nat := 2

def DB_LMDB_RETRY_DBI_OPEN : Nat := 3

def DB_LMDB_RETRY_DBI_FLAGS : Nat := 3

def DB_MAX_DBIS : Nat := 16

inductive DbiEvent where
  | beginTxn
  | openDbi (i : Nat)
  | flagsDbi (i : Nat)
  | commitTxn
  | abortTxn
deriving DecidableEq, Repr

structure DbiEng where
  /-- return codes of the upcoming engine calls, in call order
  (an exhausted stream keeps answering `MDB_SUCCESS`). -/
  rcs : List Int
  /-- outcome of `db_env_mapsize_expand()` (an engine/environment
  fact, constant in this model). -/
  expandOk : Bool
  /-- engine calls made so far. -/
  log : List DbiEvent
deriving DecidableEq, Repr

def DbiEng.call (e : DbiEng) (ev : DbiEvent) : Int × DbiEng :=
  match e.rcs with
  | [] => (0, { e with log := e.log ++ [ev] })
  | rc :: rest => (rc, { e with rcs := rest, log := e.log ++ [ev] })

def DbiEng.noteAbort (e : DbiEng) : DbiEng :=
  { e with log := e.log ++ [DbiEvent.abortTxn] }

/-- Whether `mdb_rc` reaches the retry path of `_safety_check`
(db_lmdb_core.c): one of the six plain retry labels, or `MDB_MAP_FULL`
with a successful `db_env_mapsize_expand()`. -/
def isRetryCaseL (rc : Int) (expandOk : Bool) : Prop :=
  rc = MDB_MAP_RESIZED ∨ rc = MDB_PAGE_FULL ∨ rc = MDB_TXN_FULL ∨
  rc = MDB_CURSOR_FULL ∨ rc = MDB_BAD_RSLOT ∨ rc = MDB_READERS_FULL ∨
  (rc = MDB_MAP_FULL ∧ expandOk = true)

instance (rc : Int) (x : Bool) : Decidable (isRetryCaseL rc x) := by
  unfold isRetryCaseL; infer_instance

/-- `_safety_check` (db_lmdb_core.c), for a caller passing a non-NULL
retry-budget pointer.  Returns the decision, the budget after the call
and whether the transaction was aborted.  (The write through
`out_mapped_err` — always `db_map_mdb_err(mdb_rc)` — is applied by the
callers below.) -/
def safetyCheckL (rc : Int) (budget : Nat) (txnPresent : Bool) (expandOk : Bool) :
    SafetyCode × Nat × Bool :=
  if rc = MDB_SUCCESS then (.success, budget, false)
  else if ¬ txnPresent then (.fail, budget, false)
  else if rc = MDB_NOTFOUND ∨ rc = MDB_KEYEXIST then (.fail, budget, false)
  else if isRetryCaseL rc expandOk then
    match budget with
    | 0 => (.fail, 0, true)
    | b + 1 => (.retry, b, true)
  else (.fail, budget, true)

/-- `db_lmdb_txn_begin_safe` (db_lmdb_core.c): loops internally on a
RETRY decision, so it only ever returns OK or FAIL to its caller.
`fuel` bounds the loop; since every retry consumes one unit of budget,
`budget + 1` fuel is always enough.  Returns
(decision, remaining budget, last `out_err` write, engine). -/
def txnBeginSafeL : Nat → Nat → Int → DbiEng → SafetyCode × Nat × Int × DbiEng
  | 0, budget, res, e => (.fail, budget, res, e)
  | fuel + 1, budget, res, e =>
    let c := e.call .beginTxn
    if c.1 = 0 then (.success, budget, res, c.2)
    else
      let s := safetyCheckL c.1 budget true c.2.expandOk
      let e2 := if s.2.2 then c.2.noteAbort else c.2
      match s.1 with
      | .retry => txnBeginSafeL fuel s.2.1 (mapMdbErrToErrno c.1) e2
      | _ => (.fail, s.2.1, mapMdbErrToErrno c.1, e2)

/-- `db_lmdb_txn_commit_safe` (db_lmdb_core.c): same shape as
`db_lmdb_txn_begin_safe` around `mdb_txn_commit`. -/
def txnCommitSafeL : Nat → Nat → Int → DbiEng → SafetyCode × Nat × Int × DbiEng
  | 0, budget, res, e => (.fail, budget, res, e)
  | fuel + 1, budget, res, e =>
    let c := e.call .commitTxn
    if c.1 = 0 then (.success, budget, res, c.2)
    else
      let s := safetyCheckL c.1 budget true c.2.expandOk
      let e2 := if s.2.2 then c.2.noteAbort else c.2
      match s.1 with
      | .retry => txnCommitSafeL fuel s.2.1 (mapMdbErrToErrno c.1) e2
      | _ => (.fail, s.2.1, mapMdbErrToErrno c.1, e2)

/-- `db_lmdb_dbi_open_safe` (db_lmdb_core.c): one `mdb_dbi_open` plus
one `_safety_check`; no internal loop, so a RETRY decision is returned
to the caller.  `out_err` receives `db_map_mdb_err(rc)` (0 on
success). -/
def openSafeL (i : Nat) (budget : Nat) (e : DbiEng) : SafetyCode × Nat × Int × DbiEng :=
  let c := e.call (.openDbi i)
  let s := safetyCheckL c.1 budget true c.2.expandOk
  let e2 := if s.2.2 then c.2.noteAbort else c.2
  (s.1, s.2.1, mapMdbErrToErrno c.1, e2)

/-- `db_lmdb_dbi_get_flags_safe` (db_lmdb_core.c): same shape around
`mdb_dbi_flags`. -/
def flagsSafeL (i : Nat) (budget : Nat) (e : DbiEng) : SafetyCode × Nat × Int × DbiEng :=
  let c := e.call (.flagsDbi i)
  let s := safetyCheckL c.1 budget true c.2.expandOk
  let e2 := if s.2.2 then c.2.noteAbort else c.2
  (s.1, s.2.1, mapMdbErrToErrno c.1, e2)

/-- Outcome of one pass of the `for(opened_dbi_idx; ...)` loop body of
`db_lmdb_dbi_init` over declarations `idx .. n-1`. -/
inductive DeclsOut where
  /-- all remaining declarations processed. -/
  | done (openB flagsB : Nat) (res : Int)
  /-- `_dbi_init_one` returned RETRY at declaration `idx`
  (`goto retry` with `opened_dbi_idx` still equal to `idx`). -/
  | retryAt (idx openB flagsB : Nat) (res : Int)
  /-- `_dbi_init_one` failed terminally. -/
  | failed (res : Int)
deriving DecidableEq, Repr

/-- The declaration loop of `db_lmdb_dbi_init` together with
`_dbi_init_one` (db_lmdb_dbi.c): for each declaration from `idx` on,
open the DBI then query its flags; `rem` is the number of remaining
declarations (`n_dbis - idx` at every call site). -/
def declsLoop (openB flagsB : Nat) (idx : Nat) (rem : Nat) (e : DbiEng) :
    DeclsOut × DbiEng :=
  match rem with
  | 0 => (.done openB flagsB 0, e)
  | rem' + 1 =>
    let o := openSafeL idx openB e
    match o.1 with
    | .success =>
      let f := flagsSafeL idx flagsB o.2.2.2
      match f.1 with
      | .success => declsLoop o.2.1 f.2.1 (idx + 1) rem' f.2.2.2
      | .retry => (.retryAt idx o.2.1 f.2.1 f.2.2.1, f.2.2.2)
      | .fail => (.failed f.2.2.1, f.2.2.2)
    | .retry => (.retryAt idx o.2.1 flagsB o.2.2.1, o.2.2.2)
    | .fail => (.failed o.2.2.1, o.2.2.2)

/-- `return (res > 0) ? db_map_mdb_err(res) : res;` at the `fail:`
label of `db_lmdb_dbi_init`. -/
def finalFail (res : Int) : Int :=
  if res > 0 then mapMdbErrToErrno res else res

/-- The `retry:` block of `db_lmdb_dbi_init` (db_lmdb_dbi.c): begin a
transaction, run the declaration loop from the CURRENT value of
`opened_dbi_idx` (`idx` — the source does not reset it to 0), commit.
A RETRY outcome jumps back to the top of the block.  `fuel` bounds the
jumps; every jump comes from a RETRY decision, which consumed one unit
of some budget, so `openB + flagsB + txnB + 1` fuel is enough (the
fuel-exhausted branch is unreachable from `dbLmdbDbiInit`). -/
def dbiInitGo : Nat → Nat → Nat → Nat → Nat → Nat → DbiEng → Int × DbiEng
  | 0, _, _, _, _, _, e => (-EIOerr, e)
  | fuel + 1, txnB, openB, flagsB, idx, n, e =>
    let b := txnBeginSafeL (txnB + 1) txnB (-1) e
    match b.1 with
    | .success =>
      let d := declsLoop openB flagsB idx (n - idx) b.2.2.2
      match d.1 with
      | .done oB fB _ =>
        let c := txnCommitSafeL (b.2.1 + 1) b.2.1 (-1) d.2
        match c.1 with
        | .success => (0, c.2.2.2)
        | .retry =>
          -- goto retry with opened_dbi_idx = n after the completed
          -- loop (= idx when the loop body never ran); this arm is
          -- dead in practice since txn_commit_safe loops internally
          dbiInitGo fuel c.2.1 oB fB (idx + (n - idx)) n c.2.2.2
        | .fail => (finalFail c.2.2.1, c.2.2.2)
      | .retryAt idx2 oB fB _ => dbiInitGo fuel b.2.1 oB fB idx2 n d.2
      | .failed res => (finalFail res, d.2)
    | .retry => dbiInitGo fuel b.2.1 openB flagsB idx n b.2.2.2
    | .fail => (finalFail b.2.2.1, b.2.2.2)

/-- `db_lmdb_dbi_init` (db_lmdb_dbi.c) for a healthy `DB` handle and a
successful descriptor-array allocation, over `n` declarations with
valid names. -/
def dbLmdbDbiInit (e : DbiEng) (n : Nat) : Int × DbiEng :=
  if n = 0 ∨ n > DB_MAX_DBIS then (-EINVAL, e)
  else
    dbiInitGo
      (DB_LMDB_RETRY_TRANSACTION + DB_LMDB_RETRY_DBI_OPEN + DB_LMDB_RETRY_DBI_FLAGS + 1)
      DB_LMDB_RETRY_TRANSACTION DB_LMDB_RETRY_DBI_OPEN DB_LMDB_RETRY_DBI_FLAGS
      0 n e

/-- The declaration indices of the `mdb_dbi_open` calls in a log, in
call order. -/
def opensOf (l : List DbiEvent) : List Nat :=
  l.filterMap fun ev =>
    match ev with
    | .openDbi i => some i
    | _ => Option.none

example :
    (dbLmdbDbiInit ⟨[0, 0, 0, MDB_TXN_FULL, 0, 0, 0, 0], true, []⟩ 2).2.log =
      [.beginTxn, .openDbi 0, .flagsDbi 0, .openDbi 1, .abortTxn,
       .beginTxn, .openDbi 1, .flagsDbi 1, .commitTxn] := by decide

/-! ### Shutdown (`db_core_shutdown`, core.c)

The process-wide state is the global `DataBase` pointer; when it is
non-NULL it owns an (optional) engine environment whose map size the
teardown queries best-effort. -/

structure DbState where
  /-- `DataBase->env` is non-NULL. -/
  envOpen : Bool
  /-- whether `mdb_env_info` succeeds during teardown. -/
  infoOk : Bool
  /-- engine-reported `me_mapsize`. -/
  mapsize : Nat
deriving DecidableEq, Repr

structure CoreWorld where
  /-- the global `DataBase` handle (`none` = NULL). -/
  db : Option DbState
deriving DecidableEq, Repr

/-- `db_core_shutdown` (core.c): idempotent no-op returning 0 when no
database is initialized; otherwise best-effort query of the final map
size (0 when the query fails or no environment was opened), teardown
of all state, and the global handle is cleared. -/
def dbCoreShutdown (w : CoreWorld) : Nat × CoreWorld :=
  match w.db with
  | Option.none => (0, w)
  | some d =>
    let finalMapsize := if d.envOpen then (if d.infoOk then d.mapsize else 0) else 0
    (finalMapsize, ⟨Option.none⟩)

/-! ## Theorems -/

/-! ### Security policy: C3, C4, C8 -/

theorem securityCheck_errOut_eq (rc : Int) (p : Bool) (e : SecEnv) :
    (securityCheck rc p e).errOut =
      if rc = MDB_SUCCESS then Option.none else some (mapMdbErrToErrno rc) := by
  unfold securityCheck
  split_ifs <;> rfl

theorem securityCheck_env_eq_of_ne (rc : Int) (p : Bool) (e : SecEnv)
    (h : rc ≠ MDB_MAP_FULL) : (securityCheck rc p e).env = e := by
  unfold securityCheck
  split_ifs <;> rfl

/-- Claim C3: on the map-is-full status the policy aborts the supplied
transaction (if any), then attempts to double the current map size; it
returns RETRY with the mapped code (-ENOSPC) exactly when the doubled
size stays within the configured maximum and the resize call succeeds
(with the engine state recording the doubled size), and FAIL with the
mapped code otherwise; no other decision is possible. -/
theorem c3_map_full_policy : ∀ (p : Bool) (e : SecEnv),
    (securityCheck MDB_MAP_FULL p e).errOut = some (-ENOSPC) ∧
    (securityCheck MDB_MAP_FULL p e).txnAborted = p ∧
    ((securityCheck MDB_MAP_FULL p e).decision = .retry ↔
      (e.valid = true ∧ e.infoOk = true ∧ e.mapsize * 2 ≤ e.mapsizeMax ∧
        e.setMapsizeRc = 0)) ∧
    ((securityCheck MDB_MAP_FULL p e).decision = .retry →
      (securityCheck MDB_MAP_FULL p e).env.mapsize = e.mapsize * 2) ∧
    ((securityCheck MDB_MAP_FULL p e).decision = .retry ∨
      (securityCheck MDB_MAP_FULL p e).decision = .fail) := by
  intro p e
  have hsec : securityCheck MDB_MAP_FULL p e =
      (if (expandEnvMapsize e).1 = 0 then
        ⟨.retry, some (mapMdbErrToErrno MDB_MAP_FULL), p, (expandEnvMapsize e).2⟩
      else ⟨.fail, some (mapMdbErrToErrno MDB_MAP_FULL), p, (expandEnvMapsize e).2⟩) := by
    unfold securityCheck
    norm_num [isRetryCaseSec, MDB_MAP_FULL, MDB_SUCCESS]
  rw [hsec]
  unfold expandEnvMapsize
  cases hv : e.valid <;> cases hio : e.infoOk <;>
    simp_all [mapMdbErrToErrno, MDB_MAP_FULL, MDB_SUCCESS, MDB_NOTFOUND, MDB_KEYEXIST,
      MDB_DBS_FULL, MDB_READERS_FULL, MDB_TXN_FULL, MDB_CURSOR_FULL, MDB_PAGE_FULL,
      MDB_MAP_RESIZED, MDB_INCOMPATIBLE, MDB_VERSION_MISMATCH, MDB_INVALID,
      MDB_PAGE_NOTFOUND, MDB_CORRUPTED, MDB_PANIC, MDB_BAD_RSLOT, MDB_BAD_TXN,
      MDB_BAD_VALSIZE, MDB_BAD_DBI, ENOSPC, EIOerr] <;>
    split_ifs <;> simp_all

/-- Concrete healthy environment used by security-policy witnesses. -/
def secEnvW : SecEnv := ⟨true, 4, 16, true, 0⟩

theorem c3_map_full_policy_witness :
    ((secEnvW.valid = true ∧ secEnvW.infoOk = true ∧
        secEnvW.mapsize * 2 ≤ secEnvW.mapsizeMax ∧ secEnvW.setMapsizeRc = 0) ∧
      (securityCheck MDB_MAP_FULL true secEnvW).decision = .retry) ∧
    (securityCheck MDB_MAP_FULL true secEnvW).env.mapsize = secEnvW.mapsize * 2 := by
  have h := c3_map_full_policy true secEnvW
  exact ⟨⟨by decide, h.2.2.1.mpr (by decide)⟩, h.2.2.2.1 (h.2.2.1.mpr (by decide))⟩

/-- Claim C4: the record-not-found and unique-constraint statuses are
mapped to FAIL with -ENOENT resp. -EEXIST, the supplied transaction is
not aborted, and (being FAIL by these equations) they are never
classified RETRY. -/
theorem c4_notfound_keyexist_fail_no_abort : ∀ (p : Bool) (e : SecEnv),
    securityCheck MDB_NOTFOUND p e = ⟨.fail, some (-ENOENT), false, e⟩ ∧
    securityCheck MDB_KEYEXIST p e = ⟨.fail, some (-EEXIST), false, e⟩ := by
  intro p e
  constructor <;> rfl

/-- Counterexample to claim C8: with map size 1 and configured maximum
2, two successive evaluations of the policy on the map-is-full status
with the same transaction-presence give different decisions (the first
expansion doubles the map size to the maximum, so the second doubling
is rejected): RETRY first, FAIL second.  The policy is therefore not a
pure function of (status, transaction-presence). -/
theorem c8_policy_not_pure_cex :
    (securityCheck MDB_MAP_FULL true ⟨true, 1, 2, true, 0⟩).decision = .retry ∧
    (securityCheck MDB_MAP_FULL true
        ((securityCheck MDB_MAP_FULL true ⟨true, 1, 2, true, 0⟩).env)).decision = .fail ∧
    (securityCheck MDB_MAP_FULL true ⟨true, 1, 2, true, 0⟩).decision ≠
      (securityCheck MDB_MAP_FULL true
        ((securityCheck MDB_MAP_FULL true ⟨true, 1, 2, true, 0⟩).env)).decision := by
  decide

/-- Claim C8 (amended): repeated evaluation with the same status and
transaction-presence always writes the same mapped error code, and for
every status other than map-is-full it also returns the same safety
decision (the whole result is reproduced, the state being untouched);
only the map-is-full decision depends on the mutable map-size state. -/
theorem c8_policy_deterministic_amended : ∀ (rc : Int) (p : Bool) (e : SecEnv),
    (securityCheck rc p ((securityCheck rc p e).env)).errOut =
      (securityCheck rc p e).errOut ∧
    (rc ≠ MDB_MAP_FULL →
      securityCheck rc p ((securityCheck rc p e).env) = securityCheck rc p e) := by
  intro rc p e
  refine ⟨by rw [securityCheck_errOut_eq, securityCheck_errOut_eq], ?_⟩
  intro h
  rw [securityCheck_env_eq_of_ne rc p e h]

theorem c8_policy_deterministic_amended_witness :
    MDB_NOTFOUND ≠ MDB_MAP_FULL ∧
    securityCheck MDB_NOTFOUND true
        ((securityCheck MDB_NOTFOUND true secEnvW).env) =
      securityCheck MDB_NOTFOUND true secEnvW :=
  ⟨by decide, (c8_policy_deterministic_amended MDB_NOTFOUND true secEnvW).2 (by decide)⟩

/-! ### Shutdown: C9 -/

/-- Claim C9: shutdown is idempotent and never fails.  With no
database initialized it is a no-op returning 0; any call leaves the
global handle cleared, so the second of two consecutive calls returns
0; and the first call returns the engine-reported final map size, or 0
when no environment was open or the size query fails. -/
theorem c9_shutdown_idempotent : ∀ (w : CoreWorld),
    (dbCoreShutdown w).2.db = Option.none ∧
    (dbCoreShutdown ((dbCoreShutdown w).2)).1 = 0 ∧
    (w.db = Option.none → dbCoreShutdown w = (0, w)) ∧
    (∀ d : DbState, w.db = some d →
      (dbCoreShutdown w).1 = if d.envOpen && d.infoOk then d.mapsize else 0) := by
  intro w
  obtain ⟨db⟩ := w
  cases db with
  | none => exact ⟨rfl, rfl, fun _ => rfl, fun d hd => by simp at hd⟩
  | some d =>
    refine ⟨rfl, rfl, fun h => by simp at h, fun d2 hd => ?_⟩
    obtain rfl : d = d2 := by simpa using hd
    cases he : d.envOpen <;> cases hi : d.infoOk <;>
      simp [dbCoreShutdown, he, hi]

theorem c9_shutdown_idempotent_witness :
    (⟨some ⟨true, true, 7⟩⟩ : CoreWorld).db = some ⟨true, true, 7⟩ ∧
    (dbCoreShutdown ⟨some ⟨true, true, 7⟩⟩).1 = 7 ∧
    (dbCoreShutdown ((dbCoreShutdown ⟨some ⟨true, true, 7⟩⟩).2)).1 = 0 := by
  have h := c9_shutdown_idempotent ⟨some ⟨true, true, 7⟩⟩
  exact ⟨rfl, by simpa using h.2.2.2 ⟨true, true, 7⟩ rfl, h.2.1⟩

/-! ### Batch classification: C10 -/

/-- Claim C10: enqueueing any write-kind (non-GET) operation switches
the batch classification to read-write before the lookup-index and
capacity validations run, so the classification is read-write after
the call whether or not the operation was rejected, and the next
execute opens its transaction with flags 0 (read-write), not
MDB_RDONLY. -/
theorem c10_write_kind_reclassifies : ∀ (b : Batch) (op : Op),
    batchTypeFromOpType op.type = .rw →
    ((opsAddOperation op b).2.kind = .rw ∧
      txnTypeFromBatchType ((opsAddOperation op b).2.kind) = 0) := by
  intro b op h
  have hk : (opsAddOperation op b).2.kind = .rw := by
    unfold opsAddOperation
    cases hb : b.kind <;> cases hop : op.key <;>
      simp [h, hb] <;> split_ifs <;> simp [hb]
  exact ⟨hk, by rw [hk]; rfl⟩

theorem c10_write_kind_reclassifies_witness :
    batchTypeFromOpType (Op.mk 0 .put (.lookup .key 5) (.present 1 1)).type = .rw ∧
    (opsAddOperation ⟨0, .put, .lookup .key 5, .present 1 1⟩ emptyBatch).1 = -EINVAL ∧
    (opsAddOperation ⟨0, .put, .lookup .key 5, .present 1 1⟩ emptyBatch).2.kind = .rw :=
  ⟨by decide, by decide,
    (c10_write_kind_reclassifies emptyBatch ⟨0, .put, .lookup .key 5, .present 1 1⟩
      (by decide)).1⟩

/-! ### Enqueue validation: C1 -/

/-- Whether `ops_add_operation` rejects this operation: its KEY
descriptor is a lookup with `op_index` strictly greater than the
current operation count.  (This is the only lookup validation the
source performs.) -/
def keyLookupRejected (op : Op) (b : Batch) : Bool :=
  match op.key with
  | .lookup _ i => b.ops.length < i
  | _ => false

/-- Counterexample to claim C1.  First input: an operation whose VALUE
descriptor is a lookup referencing index 5 is enqueued into an empty
batch (count 0); the claim requires rejection with -EINVAL and an
unchanged count, but the code accepts it (returns 0, count becomes 1)
because the value descriptor is never validated.  Second input: an
operation whose KEY descriptor is a lookup with index 0 = count is
likewise accepted, although its index is not strictly below the
count. -/
theorem c1_lookup_validation_cex :
    ((opsAddOperation ⟨0, .put, .present 1 1, .lookup .val 5⟩ emptyBatch).1 = 0 ∧
      (opsAddOperation ⟨0, .put, .present 1 1, .lookup .val 5⟩ emptyBatch).2.ops.length = 1) ∧
    ¬ ((opsAddOperation ⟨0, .put, .present 1 1, .lookup .val 5⟩ emptyBatch).1 = -EINVAL ∧
      (opsAddOperation ⟨0, .put, .present 1 1, .lookup .val 5⟩ emptyBatch).2.ops.length = 0) ∧
    ((opsAddOperation ⟨0, .put, .lookup .key 0, .present 1 1⟩ emptyBatch).1 = 0 ∧
      (opsAddOperation ⟨0, .put, .lookup .key 0, .present 1 1⟩ emptyBatch).2.ops.length = 1) := by
  decide

/-- Claim C1 (amended): enqueue validates only the KEY descriptor, and
rejects with -EINVAL (leaving the operation list unchanged) exactly
when the key is a lookup whose index is strictly greater than the
current count; otherwise the operation is appended when the batch has
room, and rejected with -ENOMEM (list unchanged) when the batch is at
capacity.  Value-descriptor lookups are never validated, and a key
lookup index equal to the count is accepted. -/
theorem c1_lookup_validation_amended : ∀ (b : Batch) (op : Op),
    (keyLookupRejected op b = true →
      (opsAddOperation op b).1 = -EINVAL ∧ (opsAddOperation op b).2.ops = b.ops) ∧
    (keyLookupRejected op b = false → b.ops.length < OPS_CACHE_SIZE →
      (opsAddOperation op b).1 = 0 ∧ (opsAddOperation op b).2.ops = b.ops ++ [op]) ∧
    (keyLookupRejected op b = false → OPS_CACHE_SIZE ≤ b.ops.length →
      (opsAddOperation op b).1 = -ENOMEM ∧ (opsAddOperation op b).2.ops = b.ops) := by
  intro b op
  unfold opsAddOperation keyLookupRejected
  cases hop : op.key <;>
    simp <;>
    split_ifs <;>
    simp_all

theorem c1_lookup_validation_amended_witness :
    keyLookupRejected ⟨0, .get, .lookup .key 5, .none⟩ emptyBatch = true ∧
    (opsAddOperation ⟨0, .get, .lookup .key 5, .none⟩ emptyBatch).1 = -EINVAL ∧
    (opsAddOperation ⟨0, .get, .lookup .key 5, .none⟩ emptyBatch).2.ops = emptyBatch.ops :=
  ⟨by decide,
    ((c1_lookup_validation_amended emptyBatch ⟨0, .get, .lookup .key 5, .none⟩).1
      (by decide)).1,
    ((c1_lookup_validation_amended emptyBatch ⟨0, .get, .lookup .key 5, .none⟩).1
      (by decide)).2⟩

/-! ### Resolution termination: C2 -/

/-- A single GET whose key descriptor is a lookup on its own key
(backward offset 0) - the failing input of claim C2. -/
def selfLookupOp : Op := ⟨0, .get, .lookup .key 0, .none⟩

/-- Claim C2 (code bug): the operation whose key is
Lookup(src = KEY, op_index = 0) passes enqueue-time validation
(`0 > 0` is false, so `ops_add_operation` accepts it), yet resolving
its key never terminates: `_resolve_desc` computes
`lookup_op = base - 0 = base` and recurses on exactly the same
descriptor, so the resolution exhausts every recursion-depth bound
instead of finishing within the batch size. -/
theorem c2_resolution_divergence :
    (opsAddOperation selfLookupOp emptyBatch).1 = 0 ∧
    (opsAddOperation selfLookupOp emptyBatch).2.ops = [selfLookupOp] ∧
    ∀ fuel : Nat,
      resolveDesc [selfLookupOp] fuel 0 selfLookupOp.key = Resolved.outOfFuel := by
  refine ⟨by decide, by decide, ?_⟩
  intro fuel
  induction fuel with
  | zero => rfl
  | succ n ih =>
    have hstep :
        resolveDesc [selfLookupOp] (n + 1) 0 selfLookupOp.key =
          resolveDesc [selfLookupOp] n 0 selfLookupOp.key := by
      show resolveDesc [selfLookupOp] (n + 1) 0 (Desc.lookup .key 0) =
        resolveDesc [selfLookupOp] n 0 selfLookupOp.key
      simp [resolveDesc, selfLookupOp]
    rw [hstep, ih]

/-! ### Batch always clears: C6 -/

/-- Claim C6: for every engine behaviour and every non-empty batch —
hence for every outcome of `ops_execute_operations`, including
success, a not-found or conflict failure, and retry-budget exhaustion
— the batch state immediately after the call is the all-zero state:
operation count 0, classification reset to read-only, scratch cache
empty. -/
theorem c6_batch_always_cleared : ∀ (o : ExecOracle) (b : Batch),
    b.ops.length ≠ 0 → (opsExecuteOperations o b).2 = emptyBatch := by
  intro o b h
  unfold opsExecuteOperations
  rw [if_neg h]

/-- Oracle for the C6 witness: the batch body fails terminally
(e.g. a NOT-FOUND GET) on every attempt. -/
def execOracleW : ExecOracle :=
  ⟨fun _ => (.success, Option.none),
   fun _ => (.fail, some (-ENOENT)),
   fun _ => (.success, Option.none)⟩

theorem c6_batch_always_cleared_witness :
    (Batch.mk .ro [⟨0, .get, .present 1 1, .none⟩] 0).ops.length ≠ 0 ∧
    (opsExecuteOperations execOracleW ⟨.ro, [⟨0, .get, .present 1 1, .none⟩], 0⟩).1 =
      -ENOENT ∧
    (opsExecuteOperations execOracleW ⟨.ro, [⟨0, .get, .present 1 1, .none⟩], 0⟩).2 =
      emptyBatch :=
  ⟨by decide, by decide,
    c6_batch_always_cleared execOracleW ⟨.ro, [⟨0, .get, .present 1 1, .none⟩], 0⟩
      (by decide)⟩

/-! ### GET post-processing: C7 -/

/-- Counterexample to claim C7: a GET whose caller-supplied Present
destination buffer (size 1) is smaller than the stored value (size 2).
The claim requires act_get to fail "with an invalid-argument error",
but the code returns DB_SAFETY_FAIL without writing any error code
through `out_err` (the write `some (-EINVAL)` the claim predicts never
happens). -/
theorem c7_act_get_cex :
    actGet [] 0 ⟨0, .get, .present 1 1, .present 7 1⟩ (.ok (9, 2)) secEnvW 1 =
      some ⟨.fail, ⟨0, .get, .present 1 1, .present 7 1⟩, Option.none, Option.none,
        secEnvW, false⟩ ∧
    (actGet [] 0 ⟨0, .get, .present 1 1, .present 7 1⟩ (.ok (9, 2)) secEnvW 1).map
        GetOut.errOut ≠ some (some (-EINVAL)) := by
  decide

/-- Claim C7 (amended): for every GET whose key resolves and whose
engine lookup succeeds with a value of size `vsize`:
with a caller-supplied Present destination buffer, act_get fails
(returning FAIL, without recording an error code) when the buffer is
smaller than the stored value, and otherwise copies the
engine-returned bytes into the buffer and sets the descriptor's
recorded size to `vsize`; with value-descriptor kind none, act_get
instead rewrites the operation's value descriptor in place into a
Present descriptor pointing at the engine-owned bytes. -/
theorem c7_act_get_amended : ∀ (ops : List Op) (pos fuel : Nat) (op : Op)
    (e : SecEnv) (rp rs vptr vsize : Nat),
    resolveDesc ops fuel pos op.key = .span rp rs →
    ((∀ bp bs : Nat, op.val = .present bp bs → bs < vsize →
        actGet ops pos op (.ok (vptr, vsize)) e fuel =
          some ⟨.fail, op, Option.none, Option.none, e, false⟩) ∧
      (∀ bp bs : Nat, op.val = .present bp bs → vsize ≤ bs →
        actGet ops pos op (.ok (vptr, vsize)) e fuel =
          some ⟨.success, { op with val := .present bp vsize }, Option.none,
            some (bp, vptr, vsize), e, false⟩) ∧
      (op.val = .none →
        actGet ops pos op (.ok (vptr, vsize)) e fuel =
          some ⟨.success, { op with val := .present vptr vsize }, Option.none,
            Option.none, e, false⟩)) := by
  intro ops pos fuel op e rp rs vptr vsize hkey
  unfold actGet
  rw [hkey]
  refine ⟨?_, ?_, ?_⟩
  · intro bp bs hval hlt
    rw [hval]
    simp only []
    rw [if_pos hlt]
  · intro bp bs hval hle
    rw [hval]
    simp only []
    rw [if_neg (by omega)]
  · intro hval
    rw [hval]

/-- Concrete GET used by the C7 witness: key Present(1,1), no value
buffer; engine returns a 2-byte value at address 9. -/
def c7WitnessOp : Op := ⟨0, .get, .present 1 1, .none⟩

theorem c7_act_get_amended_witness :
    resolveDesc [] 1 0 c7WitnessOp.key = .span 1 1 ∧
    actGet [] 0 c7WitnessOp (.ok (9, 2)) secEnvW 1 =
      some ⟨.success, { c7WitnessOp with val := .present 9 2 }, Option.none,
        Option.none, secEnvW, false⟩ :=
  ⟨by decide,
    (c7_act_get_amended [] 0 1 c7WitnessOp secEnvW 1 1 9 2 (by decide)).2.2 rfl⟩

/-! ### DBI registry restart behaviour: C5 -/

theorem opensOf_append (l1 l2 : List DbiEvent) :
    opensOf (l1 ++ l2) = opensOf l1 ++ opensOf l2 :=
  List.filterMap_append l1 l2 _

theorem DbiEng.call_log (e : DbiEng) (ev : DbiEvent) :
    (e.call ev).2.log = e.log ++ [ev] := by
  unfold DbiEng.call
  cases e.rcs <;> rfl

theorem DbiEng.noteAbort_log (e : DbiEng) :
    e.noteAbort.log = e.log ++ [DbiEvent.abortTxn] := rfl

theorem opensOf_nil : opensOf [] = [] := rfl

theorem opensOf_single_begin : opensOf [DbiEvent.beginTxn] = [] := rfl

theorem opensOf_single_commit : opensOf [DbiEvent.commitTxn] = [] := rfl

theorem opensOf_single_abort : opensOf [DbiEvent.abortTxn] = [] := rfl

theorem opensOf_single_flags (i : Nat) : opensOf [DbiEvent.flagsDbi i] = [] := rfl

theorem opensOf_single_open (i : Nat) : opensOf [DbiEvent.openDbi i] = [i] := rfl

theorem opensOf_begin_abort : opensOf [DbiEvent.beginTxn, DbiEvent.abortTxn] = [] := rfl

theorem opensOf_commit_abort : opensOf [DbiEvent.commitTxn, DbiEvent.abortTxn] = [] := rfl

theorem opensOf_openSafeL (i b : Nat) (e : DbiEng) :
    opensOf (openSafeL i b e).2.2.2.log = opensOf e.log ++ [i] := by
  simp only [openSafeL]
  split_ifs <;>
    simp [DbiEng.noteAbort_log, DbiEng.call_log, opensOf_append, opensOf]

theorem opensOf_flagsSafeL (i b : Nat) (e : DbiEng) :
    opensOf (flagsSafeL i b e).2.2.2.log = opensOf e.log := by
  simp only [flagsSafeL]
  split_ifs <;>
    simp [DbiEng.noteAbort_log, DbiEng.call_log, opensOf_append, opensOf]

theorem opensOf_txnBeginSafeL (fuel budget : Nat) (res : Int) (e : DbiEng) :
    opensOf (txnBeginSafeL fuel budget res e).2.2.2.log = opensOf e.log := by
  induction fuel generalizing budget res e with
  | zero => rfl
  | succ f ih =>
    simp only [txnBeginSafeL]
    split_ifs with h hab <;>
      cases hs : (safetyCheckL (e.call .beginTxn).1 budget true
        (e.call .beginTxn).2.expandOk).1 <;>
      simp [hs, ih, DbiEng.noteAbort_log, DbiEng.call_log, opensOf_append,
        opensOf_single_begin, opensOf_single_abort, opensOf_begin_abort]

theorem opensOf_txnCommitSafeL (fuel budget : Nat) (res : Int) (e : DbiEng) :
    opensOf (txnCommitSafeL fuel budget res e).2.2.2.log = opensOf e.log := by
  induction fuel generalizing budget res e with
  | zero => rfl
  | succ f ih =>
    simp only [txnCommitSafeL]
    split_ifs with h hab <;>
      cases hs : (safetyCheckL (e.call .commitTxn).1 budget true
        (e.call .commitTxn).2.expandOk).1 <;>
      simp [hs, ih, DbiEng.noteAbort_log, DbiEng.call_log, opensOf_append,
        opensOf_single_commit, opensOf_single_abort, opensOf_commit_abort]

/-- Opened-declaration indices produced by one pass of the declaration
loop starting at `idx`: they form a sorted block bounded below by
`idx` and above by `idx + rem`, and when the pass ends in a RETRY at
declaration `i2`, every index opened in the pass is at most `i2`. -/
theorem declsLoop_opens : ∀ (rem idx oB fB : Nat) (e : DbiEng),
    ∃ dl : List Nat,
      opensOf (declsLoop oB fB idx rem e).2.log = opensOf e.log ++ dl ∧
      List.Sorted (· ≤ ·) dl ∧
      (∀ j ∈ dl, idx ≤ j ∧ j < idx + rem) ∧
      (∀ i2 oB2 fB2 r2,
        (declsLoop oB fB idx rem e).1 = .retryAt i2 oB2 fB2 r2 →
          idx ≤ i2 ∧ i2 < idx + rem ∧ ∀ j ∈ dl, j ≤ i2) := by
  intro rem
  induction rem with
  | zero =>
    intro idx oB fB e
    refine ⟨[], by simp [declsLoop], by simp, by simp, ?_⟩
    intro i2 oB2 fB2 r2 hcontra
    simp [declsLoop] at hcontra
  | succ rem0 ih =>
    intro idx oB fB e
    simp only [declsLoop]
    cases ho : (openSafeL idx oB e).1 with
    | success =>
      cases hf : (flagsSafeL idx fB (openSafeL idx oB e).2.2.2).1 with
      | success =>
        simp only [ho, hf]
        obtain ⟨dl, hlog, hsort, hbnd, hretry⟩ :=
          ih (idx + 1) (openSafeL idx oB e).2.1
            (flagsSafeL idx fB (openSafeL idx oB e).2.2.2).2.1
            (flagsSafeL idx fB (openSafeL idx oB e).2.2.2).2.2.2
        refine ⟨idx :: dl, ?_, ?_, ?_, ?_⟩
        · rw [hlog, opensOf_flagsSafeL, opensOf_openSafeL]
          simp
        · rw [List.sorted_cons]
          exact ⟨fun j hj => by have := (hbnd j hj).1; omega, hsort⟩
        · intro j hj
          rcases List.mem_cons.mp hj with hj | hj
          · omega
          · have := hbnd j hj
            omega
        · intro i2 oB2 fB2 r2 hr
          obtain ⟨h1, h2, h3⟩ := hretry i2 oB2 fB2 r2 hr
          refine ⟨by omega, by omega, ?_⟩
          intro j hj
          rcases List.mem_cons.mp hj with hj | hj
          · omega
          · exact h3 j hj
      | retry =>
        simp only [ho, hf]
        refine ⟨[idx], ?_, by simp, by simp, ?_⟩
        · rw [opensOf_flagsSafeL, opensOf_openSafeL]
        · intro i2 oB2 fB2 r2 hr
          have : idx = i2 := (DeclsOut.retryAt.inj hr).1
          subst this
          simp
      | fail =>
        simp only [ho, hf]
        refine ⟨[idx], ?_, by simp, by simp, ?_⟩
        · rw [opensOf_flagsSafeL, opensOf_openSafeL]
        · intro i2 oB2 fB2 r2 hr
          simp at hr
    | retry =>
      simp only [ho]
      refine ⟨[idx], ?_, by simp, by simp, ?_⟩
      · rw [opensOf_openSafeL]
      · intro i2 oB2 fB2 r2 hr
        have : idx = i2 := (DeclsOut.retryAt.inj hr).1
        subst this
        simp
    | fail =>
      simp only [ho]
      refine ⟨[idx], ?_, by simp, by simp, ?_⟩
      · rw [opensOf_openSafeL]
      · intro i2 oB2 fB2 r2 hr
        simp at hr

theorem sorted_le_append (l1 l2 : List Nat) (h1 : List.Sorted (· ≤ ·) l1)
    (h2 : List.Sorted (· ≤ ·) l2) (h12 : ∀ a ∈ l1, ∀ b ∈ l2, a ≤ b) :
    List.Sorted (· ≤ ·) (l1 ++ l2) :=
  List.pairwise_append.mpr ⟨h1, h2, h12⟩

/-- Opened-declaration indices produced by the whole retry structure
of `db_lmdb_dbi_init` starting at `idx`: a sorted (non-decreasing)
block bounded below by `idx`. -/
theorem dbiInitGo_opens : ∀ (fuel txnB oB fB idx n : Nat) (e : DbiEng),
    ∃ dl : List Nat,
      opensOf (dbiInitGo fuel txnB oB fB idx n e).2.log = opensOf e.log ++ dl ∧
      List.Sorted (· ≤ ·) dl ∧
      (∀ j ∈ dl, idx ≤ j) := by
  intro fuel
  induction fuel with
  | zero =>
    intro txnB oB fB idx n e
    exact ⟨[], by simp [dbiInitGo], by simp, by simp⟩
  | succ f ih =>
    intro txnB oB fB idx n e
    simp only [dbiInitGo]
    cases hb : (txnBeginSafeL (txnB + 1) txnB (-1) e).1 with
    | retry =>
      obtain ⟨dl2, hlog2, hsort2, hge2⟩ :=
        ih (txnBeginSafeL (txnB + 1) txnB (-1) e).2.1 oB fB idx n
          (txnBeginSafeL (txnB + 1) txnB (-1) e).2.2.2
      exact ⟨dl2, by rw [hlog2, opensOf_txnBeginSafeL], hsort2, hge2⟩
    | fail =>
      exact ⟨[], by rw [opensOf_txnBeginSafeL]; simp, by simp, by simp⟩
    | success =>
      obtain ⟨dl1, hlog1, hsort1, hbnd1, hretry1⟩ :=
        declsLoop_opens (n - idx) idx oB fB (txnBeginSafeL (txnB + 1) txnB (-1) e).2.2.2
      cases hd : (declsLoop oB fB idx (n - idx) (txnBeginSafeL (txnB + 1) txnB (-1) e).2.2.2).1 with
      | done oB2 fB2 r2 =>
        cases hc : (txnCommitSafeL ((txnBeginSafeL (txnB + 1) txnB (-1) e).2.1 + 1)
            (txnBeginSafeL (txnB + 1) txnB (-1) e).2.1 (-1)
            (declsLoop oB fB idx (n - idx) (txnBeginSafeL (txnB + 1) txnB (-1) e).2.2.2).2).1 with
        | success =>
          refine ⟨dl1, ?_, hsort1, fun j hj => (hbnd1 j hj).1⟩
          rw [opensOf_txnCommitSafeL, hlog1, opensOf_txnBeginSafeL]
        | retry =>
          obtain ⟨dl2, hlog2, hsort2, hge2⟩ := ih _ oB2 fB2 (idx + (n - idx)) n _
          refine ⟨dl1 ++ dl2, ?_, ?_, ?_⟩
          · rw [hlog2, opensOf_txnCommitSafeL, hlog1, opensOf_txnBeginSafeL, List.append_assoc]
          · refine sorted_le_append dl1 dl2 hsort1 hsort2 ?_
            intro a ha b hbm
            have h1 := (hbnd1 a ha).2
            have h2 := hge2 b hbm
            omega
          · intro j hj
            rcases List.mem_append.mp hj with hj | hj
            · exact (hbnd1 j hj).1
            · have := hge2 j hj
              omega
        | fail =>
          refine ⟨dl1, ?_, hsort1, fun j hj => (hbnd1 j hj).1⟩
          rw [opensOf_txnCommitSafeL, hlog1, opensOf_txnBeginSafeL]
      | retryAt i2 oB2 fB2 r2 =>
        obtain ⟨hi2lo, hi2hi, hub1⟩ := hretry1 i2 oB2 fB2 r2 hd
        obtain ⟨dl2, hlog2, hsort2, hge2⟩ := ih (txnBeginSafeL (txnB + 1) txnB (-1) e).2.1
          oB2 fB2 i2 n (declsLoop oB fB idx (n - idx) (txnBeginSafeL (txnB + 1) txnB (-1) e).2.2.2).2
        refine ⟨dl1 ++ dl2, ?_, ?_, ?_⟩
        · rw [hlog2, hlog1, opensOf_txnBeginSafeL, List.append_assoc]
        · refine sorted_le_append dl1 dl2 hsort1 hsort2 ?_
          intro a ha b hbm
          have h1 := hub1 a ha
          have h2 := hge2 b hbm
          omega
        · intro j hj
          rcases List.mem_append.mp hj with hj | hj
          · exact (hbnd1 j hj).1
          · have := hge2 j hj
            omega
      | failed r2 =>
        refine ⟨dl1, ?_, hsort1, fun j hj => (hbnd1 j hj).1⟩
        rw [hlog1, opensOf_txnBeginSafeL]

/-- Counterexample to claim C5.  Two declarations; the engine answers
success to begin / open#0 / flags#0, answers MDB_TXN_FULL (a retryable
status) to the first open of declaration 1, and success afterwards.
The resulting engine-call log shows that after the RETRY a new
transaction is begun but the loop resumes AT declaration 1:
declaration 0 is opened exactly once in the whole run, so the
initialization does not re-open every declared DBI from the first
declaration as the claim states. -/
theorem c5_restart_cex :
    dbLmdbDbiInit ⟨[0, 0, 0, MDB_TXN_FULL, 0, 0, 0, 0], true, []⟩ 2 =
      (0, ⟨[], true,
        [.beginTxn, .openDbi 0, .flagsDbi 0, .openDbi 1, .abortTxn,
         .beginTxn, .openDbi 1, .flagsDbi 1, .commitTxn]⟩) ∧
    List.count 0 (opensOf
      [DbiEvent.beginTxn, .openDbi 0, .flagsDbi 0, .openDbi 1, .abortTxn,
       .beginTxn, .openDbi 1, .flagsDbi 1, .commitTxn]) = 1 ∧
    List.count 1 (opensOf
      [DbiEvent.beginTxn, .openDbi 0, .flagsDbi 0, .openDbi 1, .abortTxn,
       .beginTxn, .openDbi 1, .flagsDbi 1, .commitTxn]) = 2 := by
  decide

/-- Claim C5 (amended): whenever a per-declaration sub-step of
`db_lmdb_dbi_init` returns RETRY, a new transaction is begun but the
declaration loop resumes from the declaration that caused the retry,
not from the first declaration: over any run, for any engine
behaviour, the sequence of declaration indices passed to
`mdb_dbi_open` is non-decreasing (a restart-from-the-beginning would
re-open declaration 0 after a later declaration and break this). -/
theorem c5_resume_monotone_amended : ∀ (rcs : List Int) (xp : Bool) (n : Nat),
    List.Sorted (· ≤ ·) (opensOf (dbLmdbDbiInit ⟨rcs, xp, []⟩ n).2.log) := by
  intro rcs xp n
  unfold dbLmdbDbiInit
  split_ifs with h
  · simp [opensOf]
  · obtain ⟨dl, hlog, hsort, _⟩ :=
      dbiInitGo_opens
        (DB_LMDB_RETRY_TRANSACTION + DB_LMDB_RETRY_DBI_OPEN + DB_LMDB_RETRY_DBI_FLAGS + 1)
        DB_LMDB_RETRY_TRANSACTION DB_LMDB_RETRY_DBI_OPEN DB_LMDB_RETRY_DBI_FLAGS
        0 n ⟨rcs, xp, []⟩
    rw [hlog]
    simpa [opensOf] using hsort
